import Mathlib

/-!
Verification of the clinical endpoint derivation and risk-scoring engine of a
multi-center kidney registry pipeline (`run_analysis.py`, `merge_centers.py`).

Shallow embedding conventions:
* Python floats that only flow through arithmetic and comparisons in the
  endpoint detectors are modelled as `ℚ` (fully executable); floats that enter
  transcendental functions (CKD-EPI, KFRE) are modelled as `ℝ`.
* A possibly-missing value (Python `None` / pandas `NaN`) is `Option.none`
  wherever the source guards it with an `is None` / `pd.isna` check; a
  present but non-finite float (`inf`) is `PyF.nonfin`.  The patients
  table's sex cell is the one column the source never checks for
  missingness: its pandas `NaN` survives `ckdepi2021`'s `sex is None` test
  and is stringified, so it is modelled by `SexCell` instead.
* Dates are modelled as integer day numbers; where the code uses only the
  calendar year of a date (age computation) the year is carried directly.
* `pandas.sort_values` on a per-patient series is modelled by a sort on the
  sort key; the claims proved here do not depend on tie order.
* The statsmodels mixed-effects fit is an external collaborator; its outcome
  is passed to the gating logic as an `Except` parameter.
-/

/-- A Python float as seen by the validity checks of the scripts: either a
finite real value or a non-finite value (`nan`/`inf` that survives a
`None` check but fails `np.isfinite`). -/
inductive PyF where
  | fin (x : ℝ)
  | nonfin

/-- Embedding of `np.isfinite` on a present value. -/
def PyF.isFinite : PyF → Bool
  | .fin _ => true
  | .nonfin => false

/-- The real value carried by a finite `PyF` (unused on `nonfin`, which every
code path rejects before reading the value). -/
noncomputable def PyF.val : PyF → ℝ
  | .fin x => x
  | .nonfin => 0

/-- Embedding of `ckdepi2021` from `run_analysis.py`: CKD-EPI 2021 race-free
creatinine equation.  `None` inputs and non-finite `scr`/`age` yield `none`;
the female branch is selected by `str(sex).upper() == "F"`. -/
noncomputable def ckdepi2021 (scr_mg_dl age : Option PyF) (sex : Option String) : Option ℝ :=
  match scr_mg_dl, age, sex with
  | some scr, some a, some sx =>
      if scr.isFinite && a.isFinite then
        let is_f : Bool := sx.toUpper == "F"
        let k : ℝ := if is_f then 0.7 else 0.9
        let alpha : ℝ := if is_f then -0.241 else -0.302
        let mn : ℝ := min (scr.val / k) 1
        let mx : ℝ := max (scr.val / k) 1
        let egfr : ℝ := 142 * mn ^ alpha * mx ^ (-1.200 : ℝ) * (0.9938 : ℝ) ^ a.val
        some (if is_f then egfr * 1.012 else egfr)
      else none
  | _, _, _ => none

/-- The CKD-EPI 2021 equation as the specification writes it:
`eGFR = 142 × min(Scr/k, 1)^α × max(Scr/k, 1)^−1.200 × 0.9938^A × (1.012 if female)`
with `k = 0.7`, `α = −0.241` for female and `k = 0.9`, `α = −0.302` otherwise. -/
noncomputable def ckdepiSpec (scr age : ℝ) (female : Bool) : ℝ :=
  (let k : ℝ := if female then 0.7 else 0.9
   let alpha : ℝ := if female then -0.241 else -0.302
   142 * min (scr / k) 1 ^ alpha * max (scr / k) 1 ^ (-1.200 : ℝ) * (0.9938 : ℝ) ^ age) *
  (if female then 1.012 else 1)

/-- Embedding of Python `round(x, 5)` over the real model: round to five
decimal places.  (Mathlib `round` rounds exact halves up where CPython rounds
them to even; no claim proved here evaluates at an exact tie.) -/
noncomputable def round5 (x : ℝ) : ℝ := ((round (x * 100000) : ℤ) : ℝ) / 100000

/-- Embedding of `_kfre_risk`: convert a linear predictor to the rounded
2-year and 5-year risks via the baseline survivals. -/
noncomputable def kfre_risk (lp s0_2yr s0_5yr : ℝ) : ℝ × ℝ :=
  (round5 (1 - s0_2yr ^ Real.exp lp), round5 (1 - s0_5yr ^ Real.exp lp))

/-- Linear predictor of the 4-variable KFRE: the `_KFRE4_COEF` coefficients
applied to the `_KFRE4_CENTER`-centered covariates, with `log2_u` embedded as
`Real.logb 2`. -/
noncomputable def kfre4_lp (a e u female : ℝ) : ℝ :=
  0.2201 * (a / 10 - 7.036) +
  0.2467 * (female - 0.5642) +
  (-0.5567) * (e / 5 - 7.222) +
  0.4510 * (Real.logb 2 u - 5.137)

/-- Embedding of `kfre_4var` (Tangri 2011 coefficients as hard-coded in
`run_analysis.py`).  Missing or non-finite inputs, or non-positive
age/eGFR/UPCR, give `(none, none)`; the function is total, mirroring the
`try/except` that maps every exception to `(None, None)`. -/
noncomputable def kfre_4var (age : Option PyF) (sex : Option String)
    (egfr upcr_mg_g : Option PyF) : Option ℝ × Option ℝ :=
  match age, sex, egfr, upcr_mg_g with
  | some a, some sx, some e, some u =>
      if a.isFinite && e.isFinite && u.isFinite then
        if e.val ≤ 0 ∨ u.val ≤ 0 ∨ a.val ≤ 0 then (none, none)
        else
          let female : ℝ := if sx.toUpper == "F" then 1 else 0
          let r := kfre_risk (kfre4_lp a.val e.val u.val female) 0.9832 0.9365
          (some r.1, some r.2)
      else (none, none)
  | _, _, _, _ => (none, none)

/-- One row of the derived per-patient timeline `v2` (visit joined to its
patient's baseline anchor).  `visit_date` and `days_from_baseline` are always
present in `v2` because the join drops null visit dates and null anchors. -/
structure VRow where
  center_code : String
  patient_code : String
  visit_date : Int
  days_from_baseline : Int
  egfr : Option ℚ
  baseline_egfr : Option ℚ
  upcr : Option ℚ
  baseline_upcr_final : Option ℚ
  module : String
deriving DecidableEq, Repr

/-- Sort key relation used by `sort_values(..., "days_from_baseline")`
within one patient's rows. -/
def daysLE (a b : VRow) : Prop := a.days_from_baseline ≤ b.days_from_baseline

instance : DecidableRel daysLE := fun a b =>
  inferInstanceAs (Decidable (a.days_from_baseline ≤ b.days_from_baseline))

instance : IsTotal VRow daysLE := ⟨fun x y => Int.le_total x.days_from_baseline y.days_from_baseline⟩

instance : IsTrans VRow daysLE := ⟨fun _ _ _ h h2 => Int.le_trans h h2⟩

/-- Row filter of `compute_egfr_decline_endpoints`:
`dropna(subset=["egfr", "baseline_egfr"])` followed by `baseline_egfr > 0`. -/
def qualRow (r : VRow) : Bool :=
  r.egfr.isSome && r.baseline_egfr.isSome && decide (0 < r.baseline_egfr.getD 0)

/-- `pct_of_baseline` column: `egfr / baseline_egfr` (only read on rows that
pass `qualRow`, where both values are present). -/
def pct_of_baseline (r : VRow) : ℚ := r.egfr.getD 0 / r.baseline_egfr.getD 0

/-- One patient's qualifying rows sorted ascending by `days_from_baseline`
(the `sort_values` + `groupby` of the source, restricted to one patient). -/
def declineSub (rows : List VRow) : List VRow :=
  List.insertionSort daysLE (rows.filter qualRow)

/-- Endpoint record for one threshold: `reached_*`, `first_date_*`,
`days_to_*` columns of the decline endpoint table. -/
structure EndpointRec where
  reached : Bool
  first_date : Option Int
  days : Option Int
deriving DecidableEq, Repr

/-- Per-threshold scan of `compute_egfr_decline_endpoints`:
`hit = sub[sub["pct_of_baseline"] < thresh]`, then the first row of `hit` if
any, else reached = False with null date/days. -/
def endpointAt (sub : List VRow) (thresh : ℚ) : EndpointRec :=
  match (sub.filter fun r => decide (pct_of_baseline r < thresh)).head? with
  | some r => ⟨true, some r.visit_date, some r.days_from_baseline⟩
  | none => ⟨false, none, none⟩

/-- Embedding of `compute_egfr_decline_endpoints` for one patient: the
patient contributes a row (the 0.60-threshold and 0.43-threshold records) iff
it has at least one qualifying timeline row. -/
def compute_egfr_decline_endpoints (rows : List VRow) :
    Option (EndpointRec × EndpointRec) :=
  let sub := declineSub rows
  if sub.isEmpty then none
  else some (endpointAt sub (0.60 : ℚ), endpointAt sub (0.43 : ℚ))

/-- Specification-side first-crossing scan: the first row, among the
qualifying rows sorted ascending by elapsed days, whose ratio
`eGFR / baseline_eGFR` is strictly below the threshold. -/
def firstCrossing (rows : List VRow) (thresh : ℚ) : Option VRow :=
  (declineSub rows).find? fun r => decide (pct_of_baseline r < thresh)

/-- Endpoint record built from an optional first-crossing row: reached with
that row's date and elapsed days, or not reached with null date/days. -/
def recOfHit : Option VRow → EndpointRec
  | some r => ⟨true, some r.visit_date, some r.days_from_baseline⟩
  | none => ⟨false, none, none⟩

/-- Per-patient row of the IgAN remission endpoint table. -/
structure RemissionRec where
  reached_cr : Bool
  first_date_cr : Option Int
  days_to_cr : Option Int
  reached_pr : Bool
  first_date_pr : Option Int
  days_to_pr : Option Int
deriving DecidableEq, Repr

/-- One patient's rows as seen by `compute_igan_remission`: module tag equal
to `"IGAN"` case-insensitively, non-null UPCR, sorted by elapsed days. -/
def iganSub (rows : List VRow) : List VRow :=
  List.insertionSort daysLE
    ((rows.filter fun r => r.module.toUpper == "IGAN").filter fun r => r.upcr.isSome)

/-- Embedding of `compute_igan_remission` for one patient.  The baseline UPCR
is read from the first row of the sorted sub-table (`iloc[0]`); PR hits
require baseline UPCR present and positive. -/
def compute_igan_remission (rows : List VRow) : Option RemissionRec :=
  let sub := iganSub rows
  match sub.head? with
  | none => none
  | some r0 =>
      let b_upcr := r0.baseline_upcr_final
      let cr_hits : List VRow := sub.filter fun r => decide (r.upcr.getD 0 < 300)
      let pr_hits : List VRow :=
        match b_upcr with
        | some b =>
            if 0 < b then
              sub.filter fun r =>
                decide (r.upcr.getD 0 ≤ b * 0.50) && decide (r.upcr.getD 0 < 1000)
            else []
        | none => []
      some
        { reached_cr := !cr_hits.isEmpty
          first_date_cr := cr_hits.head?.map (·.visit_date)
          days_to_cr := cr_hits.head?.map (·.days_from_baseline)
          reached_pr := !pr_hits.isEmpty
          first_date_pr := pr_hits.head?.map (·.visit_date)
          days_to_pr := pr_hits.head?.map (·.days_from_baseline) }

/-- `time_yr` column of the timeline: `days_from_baseline / 365.25`. -/
def timeYr (r : VRow) : ℚ := (r.days_from_baseline : ℚ) / 365.25

/-- Row filter building `lme_data`: non-null eGFR and non-negative elapsed
time (`time_yr` is never null in `v2` because `days_from_baseline` is not). -/
def lmeQual (r : VRow) : Bool := r.egfr.isSome && decide (0 ≤ timeYr r)

/-- Embedding of `lme_data`: the timeline rows the slope estimator uses. -/
def lmeData (rows : List VRow) : List VRow := rows.filter lmeQual

/-- `patient_id` column built by the script: `center_code + "_" + patient_code`. -/
def patientId (r : VRow) : String := r.center_code ++ "_" ++ r.patient_code

/-- Number of distinct `patient_id` values in `lme_data` (`nunique`). -/
def nPatientsLME (l : List VRow) : Nat := (l.map patientId).dedup.length

/-- One row of the `slope_results` output table. -/
inductive SlopeEntry where
  | fitted (n_patients n_observations : Nat)
  | skipped_few_patients
  | lme_error (msg : String)
deriving DecidableEq, Repr

/-- Embedding of the module-level `slope_results` computation.  The
statsmodels availability flag and the outcome of the external mixed-effects
fit (success, or the exception message the `except` clause catches) are
parameters; everything else mirrors the script's branching. -/
def slope_results (hasStatsmodels : Bool) (rows : List VRow)
    (fit : Except String Unit) : List SlopeEntry :=
  let lme := lmeData rows
  if hasStatsmodels = true ∧ 10 ≤ lme.length then
    let n_pts := nPatientsLME lme
    if 5 ≤ n_pts then
      match fit with
      | .ok _ => [.fitted n_pts lme.length]
      | .error e => [.lme_error e]
    else [.skipped_few_patients]
  else []

/-- The `sex` cell of a `patients_baseline` row as `read_csv` delivers it:
a string, or the pandas `NaN` float of an empty cell.  The script never
normalizes or missingness-checks this column, and a DataFrame cell is never
the Python literal `None`, so `ckdepi2021`'s `sex is None` check cannot fire
on this path; `str()` renders the `NaN` cell as `"nan"`. -/
inductive SexCell where
  | str (s : String)
  | nan

/-- `str(sex)` on a sex cell: the string itself, or `"nan"` for the pandas
`NaN` of a missing cell. -/
def SexCell.pyStr : SexCell → String
  | .str s => s
  | .nan => "nan"

/-- Input fields of one `patients_baseline` row used by the anchor-eGFR
resolution.  `anchor_year` is the calendar year of the resolved
`baseline_anchor` when that anchor exists. -/
structure PatientB where
  sex : SexCell
  birth_year : Option ℤ
  baseline_scr : Option PyF
  anchor_year : Option ℤ

/-- `scr / 88.4` (µmol/L to mg/dL), lifted over non-finite values. -/
noncomputable def scrToMgDl : PyF → PyF
  | .fin x => .fin (x / 88.4)
  | .nonfin => .nonfin

/-- Embedding of `compute_baseline_egfr`: CKD-EPI on the declared baseline
creatinine, with age = anchor year − birth year; `none` when creatinine is
missing (`pd.isna` check) or non-finite (through `ckdepi2021`), or when
birth year or anchor is missing.  A missing sex does NOT yield `none`: the
pandas `NaN` sex cell passes `ckdepi2021`'s `sex is None` check and
stringifies to `"nan"`, so the male branch is computed. -/
noncomputable def compute_baseline_egfr (p : PatientB) : Option ℝ :=
  match p.baseline_scr with
  | none => none
  | some scr =>
      match p.birth_year, p.anchor_year with
      | some by_, some yr =>
          ckdepi2021 (some (scrToMgDl scr)) (some (.fin ((yr - by_ : ℤ) : ℝ)))
            (some p.sex.pyStr)
      | _, _ => none

/-- One `visits_long` row as used by the fallback eGFR resolution. -/
structure Visit where
  visit_date : Option Int
  egfr : Option ℝ

/-- Sort key relation for `sort_values("visit_date")` (rows with a null date
are dropped before sorting). -/
def visitDateLE (a b : Visit) : Prop := a.visit_date.getD 0 ≤ b.visit_date.getD 0

instance : DecidableRel visitDateLE := fun a b =>
  inferInstanceAs (Decidable (a.visit_date.getD 0 ≤ b.visit_date.getD 0))

instance : IsTotal Visit visitDateLE := ⟨fun x y => Int.le_total (x.visit_date.getD 0) (y.visit_date.getD 0)⟩

instance : IsTrans Visit visitDateLE := ⟨fun _ _ _ h h2 => Int.le_trans h h2⟩

/-- A patient's visits with a parseable date, sorted ascending by date. -/
def sortedVisits (vs : List Visit) : List Visit :=
  List.insertionSort visitDateLE (vs.filter (·.visit_date.isSome))

/-- Embedding of the `first_visit_egfr` column: pandas
`sort_values("visit_date").groupby(...).first()` takes, per column, the
first NON-NULL entry of the group, so this is the first non-null eGFR among
the date-sorted visits - not necessarily the eGFR of the earliest visit. -/
noncomputable def first_visit_egfr (vs : List Visit) : Option ℝ :=
  (sortedVisits vs).findSome? (·.egfr)

/-- Embedding of the `baseline_egfr` column after the fallback assignment:
the CKD-EPI value where computable, else the `first_visit_egfr` value. -/
noncomputable def baseline_egfr_final (p : PatientB) (vs : List Visit) : Option ℝ :=
  match compute_baseline_egfr p with
  | some x => some x
  | none => first_visit_egfr vs

/-- Specification-side reading of the fallback clause: the eGFR recorded at
the patient's earliest visit (the eGFR field of the first date-sorted visit,
null if that visit has no eGFR). -/
noncomputable def egfrAtEarliestVisit (vs : List Visit) : Option ℝ :=
  (sortedVisits vs).head?.bind (·.egfr)

/-- One row of the merged `patients_baseline` table as seen by the dedup
step of `merge_centers.py` (key columns plus a representative payload
column that distinguishes duplicate rows). -/
structure PRow where
  center_code : String
  patient_code : String
  module : String
  baseline_scr : Option ℚ
deriving DecidableEq, Repr

/-- Dedup key of the patients table: `(center_code, patient_code)`. -/
def pkey (r : PRow) : String × String := (r.center_code, r.patient_code)

/-- Embedding of `DataFrame.drop_duplicates(subset=key, keep="first")`:
keep each row whose key has not been seen earlier in input order. -/
def drop_duplicates_first : List PRow → List (String × String) → List PRow
  | [], _ => []
  | r :: rs, seen =>
      if pkey r ∈ seen then drop_duplicates_first rs seen
      else r :: drop_duplicates_first rs (pkey r :: seen)

/-- The dedup step of `merge_all` applied to the concatenated patients
table. -/
def dedup_patients (rows : List PRow) : List PRow := drop_duplicates_first rows []

/-- Concrete-row fixture: a timeline row `d` days from baseline (the visit
date is taken as the day number) carrying an eGFR and a baseline eGFR. -/
def mkRow (d : Int) (e b : ℚ) : VRow :=
  ⟨"C", "P", d, d, some e, some b, none, none, "IGAN"⟩

/-- Concrete-row fixture for the remission detector: an IgAN-module row `d`
days from baseline carrying a UPCR and a baseline UPCR. -/
def mkURow (d : Int) (u : ℚ) (bu : Option ℚ) : VRow :=
  ⟨"C", "P", d, d, none, none, some u, bu, "IgAN"⟩

/-- Specification-side PR first-crossing: the first IgAN row (ascending by
elapsed time, non-null UPCR) with UPCR ≤ 0.5 × baseline UPCR and UPCR < 1000. -/
def prFirstCrossing (rows : List VRow) (b : ℚ) : Option VRow :=
  (iganSub rows).find? fun r =>
    decide (r.upcr.getD 0 ≤ 0.5 * b) && decide (r.upcr.getD 0 < 1000)

/-! ## Helper lemmas -/

lemma head?_filter_eq_find? {α : Type} (p : α → Bool) :
    ∀ l : List α, (l.filter p).head? = l.find? p
  | [] => rfl
  | x :: xs => by
    by_cases h : p x = true
    · rw [List.filter_cons_of_pos h, List.find?_cons_of_pos _ h]
      rfl
    · rw [List.filter_cons_of_neg (by simpa using h), List.find?_cons_of_neg _ (by simpa using h)]
      exact head?_filter_eq_find? p xs

lemma filter_isEmpty_eq_find?_isNone {α : Type} (p : α → Bool) (l : List α) :
    (l.filter p).isEmpty = (l.find? p).isNone := by
  rw [← head?_filter_eq_find? p l]
  cases l.filter p <;> rfl

lemma find?_le_of_imp {α : Type} (key : α → Int) (p q : α → Bool)
    (himp : ∀ x, q x = true → p x = true) :
    ∀ l : List α, l.Pairwise (fun a b => key a ≤ key b) →
      ∀ b, l.find? q = some b → ∃ a, l.find? p = some a ∧ key a ≤ key b := by
  intro l
  induction l with
  | nil => intro _ b hb; simp at hb
  | cons x xs ih =>
    intro hs b hb
    by_cases hpx : p x = true
    · refine ⟨x, by rw [List.find?_cons_of_pos _ hpx], ?_⟩
      by_cases hqx : q x = true
      · rw [List.find?_cons_of_pos _ hqx] at hb
        injection hb with hb
        exact hb ▸ le_refl _
      · rw [List.find?_cons_of_neg _ (by simpa using hqx)] at hb
        exact (List.pairwise_cons.mp hs).1 b (List.mem_of_find?_eq_some hb)
    · have hqx : ¬ q x = true := fun hq => hpx (himp x hq)
      rw [List.find?_cons_of_neg _ (by simpa using hqx)] at hb
      rw [List.find?_cons_of_neg _ (by simpa using hpx)]
      exact ih (List.pairwise_cons.mp hs).2 b hb

lemma ckdepi2021_fin (x a : ℝ) (s : String) :
    ckdepi2021 (some (.fin x)) (some (.fin a)) (some s)
      = some (ckdepiSpec x a (s.toUpper == "F")) := by
  cases h : (s.toUpper == "F") <;>
    simp [ckdepi2021, ckdepiSpec, PyF.isFinite, PyF.val, h]

lemma round5_mono {x y : ℝ} (h : x ≤ y) : round5 x ≤ round5 y := by
  unfold round5
  have hr : round (x * 100000) ≤ round (y * 100000) := by
    rw [round_eq, round_eq]
    exact Int.floor_le_floor (by linarith)
  have hc : ((round (x * 100000) : ℤ) : ℝ) ≤ ((round (y * 100000) : ℤ) : ℝ) :=
    Int.cast_le.mpr hr
  exact div_le_div_of_nonneg_right hc (by norm_num)

lemma round5_zero : round5 0 = 0 := by
  simp [round5]

lemma round5_one : round5 1 = 1 := by
  unfold round5
  rw [one_mul, show ((100000 : ℝ)) = ((100000 : ℤ) : ℝ) by norm_num, round_intCast]
  norm_num

lemma round5_nonneg {x : ℝ} (h : 0 ≤ x) : 0 ≤ round5 x :=
  round5_zero ▸ round5_mono h

lemma round5_le_one {x : ℝ} (h : x ≤ 1) : round5 x ≤ 1 :=
  round5_one ▸ round5_mono h

lemma round5_eq_one_of_near {x : ℝ} (h1 : 1 - 1 / 200000 < x) (h2 : x ≤ 1) :
    round5 x = 1 := by
  unfold round5
  have hfl : round (x * 100000) = 100000 := by
    rw [round_eq, Int.floor_eq_iff]
    constructor
    · push_cast
      linarith
    · push_cast
      linarith
  rw [hfl]
  norm_num

lemma exp_ge_of_ge_ten {lp : ℝ} (h : (10 : ℝ) ≤ lp) : (738 : ℝ) ≤ Real.exp lp := by
  have h1 : Real.exp 10 ≤ Real.exp lp := Real.exp_le_exp.mpr h
  have h2 : ((2 : ℝ)) ^ (10 : ℕ) ≤ Real.exp 1 ^ (10 : ℕ) :=
    pow_le_pow_left₀ (by norm_num) (by linarith [Real.add_one_le_exp 1]) 10
  have h3 : Real.exp 1 ^ (10 : ℕ) = Real.exp 10 := by
    rw [← Real.exp_nat_mul]
    norm_num
  have h4 : ((2 : ℝ)) ^ (10 : ℕ) = 1024 := by norm_num
  linarith

lemma rpow_small_of_pow41_le_half {s : ℝ} (hs0 : 0 < s) (hs1 : s ≤ 1)
    (h41 : s ^ (41 : ℕ) ≤ 1 / 2) {E : ℝ} (hE : (738 : ℝ) ≤ E) :
    s ^ E < 1 / 200000 := by
  have h1 : s ^ E ≤ s ^ (738 : ℝ) := Real.rpow_le_rpow_of_exponent_ge hs0 hs1 hE
  have hnat : s ^ (738 : ℝ) = s ^ (738 : ℕ) := by
    rw [show ((738 : ℝ)) = ((738 : ℕ) : ℝ) by norm_num, Real.rpow_natCast]
  have hpow : s ^ (738 : ℕ) = (s ^ (41 : ℕ)) ^ (18 : ℕ) := by
    rw [← pow_mul]
  have h3 : (s ^ (41 : ℕ)) ^ (18 : ℕ) ≤ ((1 / 2 : ℝ)) ^ (18 : ℕ) :=
    pow_le_pow_left₀ (pow_nonneg hs0.le 41) h41 18
  have h4 : ((1 / 2 : ℝ)) ^ (18 : ℕ) < 1 / 200000 := by norm_num
  calc s ^ E ≤ s ^ (738 : ℝ) := h1
    _ = (s ^ (41 : ℕ)) ^ (18 : ℕ) := hnat.trans hpow
    _ ≤ ((1 / 2 : ℝ)) ^ (18 : ℕ) := h3
    _ < 1 / 200000 := h4

/-! ## Claim theorems -/

/-- C2: for every creatinine, age, and sex, `ckdepi2021` returns exactly
`142 × min(Scr/k, 1)^α × max(Scr/k, 1)^(−1.200) × 0.9938^A`, multiplied by
`1.012` for female, with `k`/`α` chosen by sex (female iff the upper-cased
sex string is "F"); in particular at Scr=1.0, age=40, sex="M" it equals
`142 × min(1/0.9, 1)^(−0.302) × max(1/0.9, 1)^(−1.2) × 0.9938^40`. -/
theorem ckdepi2021_matches_spec :
    (∀ (scr age : ℝ) (sex : String),
        ckdepi2021 (some (.fin scr)) (some (.fin age)) (some sex)
          = some (ckdepiSpec scr age (sex.toUpper == "F"))) ∧
    ckdepi2021 (some (.fin 1)) (some (.fin 40)) (some "M")
      = some (142 * min (1 / 0.9) 1 ^ (-0.302 : ℝ) * max (1 / 0.9) 1 ^ (-1.2 : ℝ)
          * (0.9938 : ℝ) ^ (40 : ℝ)) := by
  refine ⟨fun scr age sex => ckdepi2021_fin scr age sex, ?_⟩
  rw [ckdepi2021_fin]
  have hM : ("M".toUpper == "F") = false := by with_unfolding_all decide
  rw [hM]
  simp only [ckdepiSpec, if_false, Bool.false_eq_true, mul_one]
  norm_num

/-- C3: `kfre_4var` returns `(none, none)` whenever any of the four inputs is
missing, any numeric input is non-finite, or age/eGFR/UPCR is non-positive
(totality of the embedded function mirrors the `try/except` guarantee that
the Python function never raises), and returns two non-null risks on every
valid input. -/
theorem kfre_4var_validity :
    (∀ (age egfr upcr : Option PyF) (sex : Option String),
        (age = none ∨ sex = none ∨ egfr = none ∨ upcr = none ∨
         age = some .nonfin ∨ egfr = some .nonfin ∨ upcr = some .nonfin ∨
         (∃ a, age = some (.fin a) ∧ a ≤ 0) ∨
         (∃ e, egfr = some (.fin e) ∧ e ≤ 0) ∨
         (∃ u, upcr = some (.fin u) ∧ u ≤ 0)) →
        kfre_4var age sex egfr upcr = (none, none)) ∧
    (∀ (a e u : ℝ) (s : String), 0 < a → 0 < e → 0 < u →
        ∃ r2 r5 : ℝ,
          kfre_4var (some (.fin a)) (some s) (some (.fin e)) (some (.fin u))
            = (some r2, some r5)) := by
  constructor
  · intro age egfr upcr sex h
    rcases h with h | h | h | h | h | h | h | ⟨a, ha, ha0⟩ | ⟨e, he, he0⟩ | ⟨u, hu, hu0⟩
    · subst h; cases sex <;> cases egfr <;> cases upcr <;> rfl
    · subst h; cases age <;> cases egfr <;> cases upcr <;> rfl
    · subst h; cases age <;> cases sex <;> cases upcr <;> rfl
    · subst h; cases age <;> cases sex <;> cases egfr <;> rfl
    · subst h
      cases sex with
      | none => rfl
      | some s =>
          cases egfr with
          | none => rfl
          | some e =>
              cases upcr with
              | none => rfl
              | some u => simp [kfre_4var, PyF.isFinite]
    · subst h
      cases sex with
      | none => cases age <;> cases upcr <;> rfl
      | some s =>
          cases age with
          | none => cases upcr <;> rfl
          | some a =>
              cases upcr with
              | none => rfl
              | some u => simp [kfre_4var, PyF.isFinite]
    · subst h
      cases sex with
      | none => cases age <;> cases egfr <;> rfl
      | some s =>
          cases age with
          | none => cases egfr <;> rfl
          | some a =>
              cases egfr with
              | none => rfl
              | some e => simp [kfre_4var, PyF.isFinite]
    · subst ha
      cases sex with
      | none => cases egfr <;> cases upcr <;> rfl
      | some s =>
          cases egfr with
          | none => cases upcr <;> rfl
          | some e =>
              cases upcr with
              | none => rfl
              | some u => simp [kfre_4var, PyF.isFinite, PyF.val, ha0]
    · subst he
      cases sex with
      | none => cases age <;> cases upcr <;> rfl
      | some s =>
          cases age with
          | none => cases upcr <;> rfl
          | some a =>
              cases upcr with
              | none => rfl
              | some u => simp [kfre_4var, PyF.isFinite, PyF.val, he0]
    · subst hu
      cases sex with
      | none => cases age <;> cases egfr <;> rfl
      | some s =>
          cases age with
          | none => cases egfr <;> rfl
          | some a =>
              cases egfr with
              | none => rfl
              | some e => simp [kfre_4var, PyF.isFinite, PyF.val, hu0]
  · intro a e u s ha he hu
    simp only [kfre_4var, PyF.isFinite, PyF.val, Bool.and_self, if_true]
    rw [if_neg (by push_neg; exact ⟨by linarith, by linarith, by linarith⟩)]
    exact ⟨_, _, rfl⟩

/-- Witness for C3 at concrete inputs: a missing age gives `(none, none)`,
and the spec's example input (age 70, female, eGFR 30, UPCR 300) gives two
non-null risks. -/
theorem kfre_4var_validity_witness :
    kfre_4var none (some "F") (some (.fin 30)) (some (.fin 300)) = (none, none) ∧
    ∃ r2 r5 : ℝ,
      kfre_4var (some (.fin 70)) (some "F") (some (.fin 30)) (some (.fin 300))
        = (some r2, some r5) :=
  ⟨kfre_4var_validity.1 none (some (.fin 30)) (some (.fin 300)) (some "F") (Or.inl rfl),
   kfre_4var_validity.2 70 30 300 "F" (by norm_num) (by norm_num) (by norm_num)⟩

lemma kfre_risk_bounds (lp : ℝ) :
    0 ≤ (kfre_risk lp 0.9832 0.9365).1 ∧
    (kfre_risk lp 0.9832 0.9365).1 ≤ (kfre_risk lp 0.9832 0.9365).2 ∧
    (kfre_risk lp 0.9832 0.9365).2 ≤ 1 := by
  unfold kfre_risk
  have hE0 : (0 : ℝ) ≤ Real.exp lp := (Real.exp_pos lp).le
  have h2le1 : (0.9832 : ℝ) ^ Real.exp lp ≤ 1 :=
    Real.rpow_le_one (by norm_num) (by norm_num) hE0
  have h5pos : (0 : ℝ) < (0.9365 : ℝ) ^ Real.exp lp :=
    Real.rpow_pos_of_pos (by norm_num) _
  have hcmp : (0.9365 : ℝ) ^ Real.exp lp ≤ (0.9832 : ℝ) ^ Real.exp lp :=
    Real.rpow_le_rpow (by norm_num) (by norm_num) hE0
  exact ⟨round5_nonneg (by linarith), round5_mono (by linarith),
    round5_le_one (by linarith)⟩

lemma kfre_risk_saturates {lp : ℝ} (h : (10 : ℝ) ≤ lp) :
    (kfre_risk lp 0.9832 0.9365).1 = 1 ∧ (kfre_risk lp 0.9832 0.9365).2 = 1 := by
  unfold kfre_risk
  have hE := exp_ge_of_ge_ten h
  have h2 : (0.9832 : ℝ) ^ Real.exp lp < 1 / 200000 :=
    rpow_small_of_pow41_le_half (by norm_num) (by norm_num) (by norm_num) hE
  have h5 : (0.9365 : ℝ) ^ Real.exp lp < 1 / 200000 :=
    rpow_small_of_pow41_le_half (by norm_num) (by norm_num) (by norm_num) hE
  have h2pos : (0 : ℝ) < (0.9832 : ℝ) ^ Real.exp lp :=
    Real.rpow_pos_of_pos (by norm_num) _
  have h5pos : (0 : ℝ) < (0.9365 : ℝ) ^ Real.exp lp :=
    Real.rpow_pos_of_pos (by norm_num) _
  exact ⟨round5_eq_one_of_near (by linarith) (by linarith),
    round5_eq_one_of_near (by linarith) (by linarith)⟩

/-- C6 (amended): on every valid input set the 4-variable KFRE returns two
non-null risks, each in [0, 1], with the 5-year risk at least the 2-year
risk.  (The strict inequality of the original claim fails after the 5-decimal
rounding; see the counterexample.) -/
theorem kfre_4var_risks_range_monotone (a e u : ℝ) (s : String)
    (ha : 0 < a) (he : 0 < e) (hu : 0 < u) :
    ∃ r2 r5 : ℝ,
      kfre_4var (some (.fin a)) (some s) (some (.fin e)) (some (.fin u))
        = (some r2, some r5) ∧ 0 ≤ r2 ∧ r2 ≤ r5 ∧ r5 ≤ 1 := by
  simp only [kfre_4var, PyF.isFinite, PyF.val, Bool.and_self, if_true]
  rw [if_neg (by push_neg; exact ⟨by linarith, by linarith, by linarith⟩)]
  exact ⟨_, _, rfl, kfre_risk_bounds _⟩

/-- Witness for C6 (amended) at the specification's example input
(age 70, female, eGFR 30, UPCR 300). -/
theorem kfre_4var_risks_range_monotone_witness :
    (0 : ℝ) < 70 ∧ (0 : ℝ) < 30 ∧ (0 : ℝ) < 300 ∧
    ∃ r2 r5 : ℝ,
      kfre_4var (some (.fin 70)) (some "F") (some (.fin 30)) (some (.fin 300))
        = (some r2, some r5) ∧ 0 ≤ r2 ∧ r2 ≤ r5 ∧ r5 ≤ 1 :=
  ⟨by norm_num, by norm_num, by norm_num,
   kfre_4var_risks_range_monotone 70 30 300 "F" (by norm_num) (by norm_num) (by norm_num)⟩

/-- C6 counterexample: at the valid input age = 70, sex = "M", eGFR = 5,
UPCR = 2^40 the linear predictor is so large that both rounded risks equal
1.0, so the 5-year risk is NOT strictly greater than the 2-year risk. -/
theorem kfre_4var_strict_monotonicity_counterexample :
    (0 : ℝ) < 70 ∧ (0 : ℝ) < 5 ∧ (0 : ℝ) < (2 : ℝ) ^ (40 : ℕ) ∧
    (kfre_4var (some (.fin 70)) (some "M") (some (.fin 5))
        (some (.fin ((2 : ℝ) ^ (40 : ℕ))))).1
      = (kfre_4var (some (.fin 70)) (some "M") (some (.fin 5))
          (some (.fin ((2 : ℝ) ^ (40 : ℕ))))).2 := by
  refine ⟨by norm_num, by norm_num, by positivity, ?_⟩
  have hM : ("M".toUpper == "F") = false := by with_unfolding_all decide
  have hlog : Real.logb 2 ((2 : ℝ) ^ (40 : ℕ)) = 40 := by
    have h2 : Real.log 2 ≠ 0 := ne_of_gt (Real.log_pos (by norm_num))
    rw [Real.logb, Real.log_pow]
    field_simp
  have hlp : (10 : ℝ) ≤ kfre4_lp 70 5 ((2 : ℝ) ^ (40 : ℕ)) 0 := by
    unfold kfre4_lp
    rw [hlog]
    norm_num
  simp only [kfre_4var, PyF.isFinite, PyF.val, Bool.and_self, if_true, hM,
    Bool.false_eq_true, if_false]
  rw [if_neg (by push_neg; refine ⟨by norm_num, by positivity, by norm_num⟩)]
  rw [(kfre_risk_saturates hlp).1, (kfre_risk_saturates hlp).2]

lemma endpointAt_eq_recOfHit (sub : List VRow) (t : ℚ) :
    endpointAt sub t
      = recOfHit (sub.find? fun r => decide (pct_of_baseline r < t)) := by
  unfold endpointAt
  rw [head?_filter_eq_find?]
  cases sub.find? fun r => decide (pct_of_baseline r < t) <;> rfl

lemma declineSub_ne_nil {rows : List VRow} (h : rows.filter qualRow ≠ []) :
    declineSub rows ≠ [] := by
  intro hempty
  apply h
  have hperm := List.perm_insertionSort daysLE (rows.filter qualRow)
  rw [declineSub] at hempty
  rw [hempty] at hperm
  exact hperm.symm.eq_nil

/-- C1: for a patient with at least one qualifying row (non-null eGFR,
non-null baseline eGFR, baseline eGFR > 0), the decline detector emits one
record per threshold, and for each of 0.60 and 0.43 independently the record
is built from the first qualifying row (ascending by `days_from_baseline`)
whose ratio is strictly below that threshold - reached with that row's date
and elapsed days - or is `reached = false` with null date/days when no row
crosses. -/
theorem egfr_decline_first_crossing (rows : List VRow)
    (h : rows.filter qualRow ≠ []) :
    compute_egfr_decline_endpoints rows
      = some (recOfHit (firstCrossing rows (0.60 : ℚ)),
              recOfHit (firstCrossing rows (0.43 : ℚ))) := by
  unfold compute_egfr_decline_endpoints
  rw [if_neg (by simpa [List.isEmpty_iff] using declineSub_ne_nil h)]
  rw [endpointAt_eq_recOfHit, endpointAt_eq_recOfHit]
  rfl

/-- Witness for C1: the specification's seeded scenario (baseline eGFR 100,
visits at days 0/100/200 with eGFR 100/65/55). -/
theorem egfr_decline_first_crossing_witness :
    ([mkRow 0 100 100, mkRow 100 65 100, mkRow 200 55 100].filter qualRow ≠ []) ∧
    compute_egfr_decline_endpoints [mkRow 0 100 100, mkRow 100 65 100, mkRow 200 55 100]
      = some (recOfHit (firstCrossing [mkRow 0 100 100, mkRow 100 65 100, mkRow 200 55 100] (0.60 : ℚ)),
              recOfHit (firstCrossing [mkRow 0 100 100, mkRow 100 65 100, mkRow 200 55 100] (0.43 : ℚ))) :=
  ⟨by with_unfolding_all decide,
   egfr_decline_first_crossing _ (by with_unfolding_all decide)⟩

/-- C9: in every emitted decline-endpoint record, reaching the 57% threshold
implies reaching the 40% threshold, and when both are reached the days to
the 40% event do not exceed the days to the 57% event. -/
theorem egfr_decline_57_implies_40 (rows : List VRow) (e40 e57 : EndpointRec)
    (h : compute_egfr_decline_endpoints rows = some (e40, e57)) :
    (e57.reached = true → e40.reached = true) ∧
    (∀ d40 d57 : Int, e40.days = some d40 → e57.days = some d57 → d40 ≤ d57) := by
  unfold compute_egfr_decline_endpoints at h
  by_cases hemp : (declineSub rows).isEmpty
  · rw [if_pos hemp] at h
    exact absurd h (by simp)
  · rw [if_neg hemp] at h
    have h40 : e40 = endpointAt (declineSub rows) (0.60 : ℚ) := by
      injection h with h'
      exact (congrArg Prod.fst h').symm
    have h57 : e57 = endpointAt (declineSub rows) (0.43 : ℚ) := by
      injection h with h'
      exact (congrArg Prod.snd h').symm
    rw [endpointAt_eq_recOfHit] at h40 h57
    have hsorted : (declineSub rows).Pairwise
        (fun a b => a.days_from_baseline ≤ b.days_from_baseline) :=
      List.sorted_insertionSort daysLE (rows.filter qualRow)
    cases hq : (declineSub rows).find? fun r => decide (pct_of_baseline r < (0.43 : ℚ)) with
    | none =>
        rw [hq] at h57
        refine ⟨?_, ?_⟩
        · intro hr
          rw [h57] at hr
          exact absurd hr (by simp [recOfHit])
        · intro d40 d57 _ hd57
          rw [h57] at hd57
          exact absurd hd57 (by simp [recOfHit])
    | some b =>
        obtain ⟨a, hfa, hab⟩ :=
          find?_le_of_imp (fun r => r.days_from_baseline)
            (fun r => decide (pct_of_baseline r < (0.60 : ℚ)))
            (fun r => decide (pct_of_baseline r < (0.43 : ℚ)))
            (fun x hx => by
              simp only [decide_eq_true_eq] at hx ⊢
              have : (0.43 : ℚ) < 0.60 := by norm_num
              linarith)
            (declineSub rows) hsorted b hq
        rw [hq] at h57
        rw [hfa] at h40
        refine ⟨fun _ => by rw [h40]; rfl, ?_⟩
        intro d40 d57 hd40 hd57
        rw [h40] at hd40
        rw [h57] at hd57
        simp only [recOfHit, Option.some.injEq] at hd40 hd57
        rw [← hd40, ← hd57]
        exact hab

/-- Witness for C9: a single row with eGFR ratio 0.3 reaches both
thresholds at day 0. -/
theorem egfr_decline_57_implies_40_witness :
    compute_egfr_decline_endpoints [mkRow 0 30 100]
      = some (⟨true, some 0, some 0⟩, ⟨true, some 0, some 0⟩) ∧
    (((⟨true, some 0, some 0⟩ : EndpointRec).reached = true →
        (⟨true, some 0, some 0⟩ : EndpointRec).reached = true) ∧
     (∀ d40 d57 : Int, (⟨true, some 0, some 0⟩ : EndpointRec).days = some d40 →
        (⟨true, some 0, some 0⟩ : EndpointRec).days = some d57 → d40 ≤ d57)) :=
  ⟨by with_unfolding_all decide,
   egfr_decline_57_implies_40 [mkRow 0 30 100] ⟨true, some 0, some 0⟩ ⟨true, some 0, some 0⟩
     (by with_unfolding_all decide)⟩

/-- C10: the endpoint detectors put no lower bound on elapsed time - a
pre-baseline visit (negative `days_from_baseline`) can be the first crossing
for both the eGFR-decline and the remission detector, recording negative
days-to-event - while the slope estimator's `lme_data` filter drops the same
row for its negative elapsed time. -/
theorem pre_baseline_visit_eligible :
    compute_egfr_decline_endpoints [mkRow (-10) 50 100]
      = some (⟨true, some (-10), some (-10)⟩, ⟨false, none, none⟩) ∧
    compute_igan_remission [mkURow (-10) 250 (some 1000)]
      = some ⟨true, some (-10), some (-10), true, some (-10), some (-10)⟩ ∧
    ((-10 : Int) < 0) ∧
    lmeData [mkRow (-10) 50 100] = [] ∧
    lmeData [mkURow (-10) 250 (some 1000)] = [] := by
  with_unfolding_all decide

lemma mem_iganSub {r : VRow} {rows : List VRow} (h : r ∈ iganSub rows) : r ∈ rows := by
  unfold iganSub at h
  have h1 := (List.perm_insertionSort daysLE _).mem_iff.mp h
  exact (List.mem_filter.mp (List.mem_filter.mp h1).1).1

/-- C4: for an IgAN-module patient with at least one UPCR-bearing timeline
row and a uniform baseline UPCR across its rows, partial remission is the
first-crossing scan for `UPCR ≤ 0.5 × baseline ∧ UPCR < 1000` when the
baseline UPCR is present and positive, and is reported as not reached (null
date/days) when the baseline UPCR is missing or non-positive. -/
theorem igan_pr_endpoint (rows : List VRow) (bu : Option ℚ)
    (huni : ∀ r ∈ rows, r.baseline_upcr_final = bu) (hne : iganSub rows ≠ []) :
    ∃ rec, compute_igan_remission rows = some rec ∧
      ((∀ b, bu = some b → 0 < b →
          rec.reached_pr = (prFirstCrossing rows b).isSome ∧
          rec.first_date_pr = (prFirstCrossing rows b).map (·.visit_date) ∧
          rec.days_to_pr = (prFirstCrossing rows b).map (·.days_from_baseline)) ∧
       (∀ b, bu = some b → b ≤ 0 →
          rec.reached_pr = false ∧ rec.first_date_pr = none ∧ rec.days_to_pr = none) ∧
       (bu = none →
          rec.reached_pr = false ∧ rec.first_date_pr = none ∧ rec.days_to_pr = none)) := by
  cases hhead : (iganSub rows).head? with
  | none => exact absurd (List.head?_eq_none_iff.mp hhead) hne
  | some r0 =>
    have hr0 : r0.baseline_upcr_final = bu :=
      huni r0 (mem_iganSub (List.mem_of_mem_head? hhead))
    simp only [compute_igan_remission, hhead]
    refine ⟨_, rfl, ?_, ?_, ?_⟩
    · intro b hb hbpos
      subst hb
      simp only [hr0]
      rw [if_pos hbpos]
      have hpred : (fun r : VRow =>
            decide (r.upcr.getD 0 ≤ b * 0.50) && decide (r.upcr.getD 0 < 1000))
          = (fun r : VRow =>
            decide (r.upcr.getD 0 ≤ 0.5 * b) && decide (r.upcr.getD 0 < 1000)) := by
        funext r
        have hcomm : b * 0.50 = 0.5 * b := by
          rw [mul_comm]
          norm_num
        rw [hcomm]
      rw [hpred]
      refine ⟨?_, ?_, ?_⟩
      · simp only [prFirstCrossing, filter_isEmpty_eq_find?_isNone]
        cases (iganSub rows).find? fun r =>
            decide (r.upcr.getD 0 ≤ 0.5 * b) && decide (r.upcr.getD 0 < 1000) <;> rfl
      · simp only [prFirstCrossing, head?_filter_eq_find?]
      · simp only [prFirstCrossing, head?_filter_eq_find?]
    · intro b hb hbnonpos
      subst hb
      simp only [hr0]
      rw [if_neg (by simpa using hbnonpos)]
      exact ⟨rfl, rfl, rfl⟩
    · intro hb
      subst hb
      simp only [hr0]
      exact ⟨rfl, rfl, rfl⟩

set_option maxRecDepth 4000 in
/-- Witness for C4: the specification's remission scenario - baseline UPCR
1000, visits at UPCR 450 (day 30) and 250 (day 60); PR is reached at day 30. -/
theorem igan_pr_endpoint_witness :
    (∀ r ∈ [mkURow 30 450 (some 1000), mkURow 60 250 (some 1000)],
        r.baseline_upcr_final = some 1000) ∧
    iganSub [mkURow 30 450 (some 1000), mkURow 60 250 (some 1000)] ≠ [] ∧
    ∃ rec, compute_igan_remission [mkURow 30 450 (some 1000), mkURow 60 250 (some 1000)]
        = some rec ∧
      ((∀ b, (some 1000 : Option ℚ) = some b → 0 < b →
          rec.reached_pr
            = (prFirstCrossing [mkURow 30 450 (some 1000), mkURow 60 250 (some 1000)] b).isSome ∧
          rec.first_date_pr
            = (prFirstCrossing [mkURow 30 450 (some 1000), mkURow 60 250 (some 1000)] b).map
                (·.visit_date) ∧
          rec.days_to_pr
            = (prFirstCrossing [mkURow 30 450 (some 1000), mkURow 60 250 (some 1000)] b).map
                (·.days_from_baseline)) ∧
       (∀ b, (some 1000 : Option ℚ) = some b → b ≤ 0 →
          rec.reached_pr = false ∧ rec.first_date_pr = none ∧ rec.days_to_pr = none) ∧
       ((some 1000 : Option ℚ) = none →
          rec.reached_pr = false ∧ rec.first_date_pr = none ∧ rec.days_to_pr = none)) :=
  ⟨by with_unfolding_all decide, by with_unfolding_all decide,
   igan_pr_endpoint [mkURow 30 450 (some 1000), mkURow 60 250 (some 1000)] (some 1000)
     (by with_unfolding_all decide) (by with_unfolding_all decide)⟩

lemma mem_sortedVisits {v : Visit} {vs : List Visit} (h : v ∈ sortedVisits vs) :
    v ∈ vs := by
  unfold sortedVisits at h
  have h1 := (List.perm_insertionSort visitDateLE _).mem_iff.mp h
  exact (List.mem_filter.mp h1).1

/-- C5 (amended): the anchor eGFR equals the CKD-EPI 2021 value computed
from the baseline creatinine (at age = anchor year − birth year, female
branch iff the upper-cased stringified sex cell is "F") whenever creatinine
is present and finite and birth year and anchor are present - INCLUDING when
the sex cell is missing, since the pandas NaN sex stringifies to "nan" and
takes the male branch with no fallback; the fallback applies exactly when
creatinine is missing or non-finite, or birth year or anchor is missing, and
it is the FIRST NON-NULL eGFR among the patient's date-sorted visits (pandas
`groupby(...).first()` skips nulls - not necessarily the eGFR recorded at
the earliest visit); the anchor eGFR is null when the fallback applies and
no visit carries an eGFR. -/
theorem anchor_egfr_resolution (p : PatientB) (vs : List Visit) :
    (∀ (scr : ℝ) (by_ yr : ℤ),
        p.baseline_scr = some (.fin scr) → p.birth_year = some by_ →
        p.anchor_year = some yr →
        baseline_egfr_final p vs
          = some (ckdepiSpec (scr / 88.4) (((yr - by_ : ℤ) : ℝ))
              (p.sex.pyStr.toUpper == "F"))) ∧
    (p.sex = SexCell.nan → (p.sex.pyStr.toUpper == "F") = false) ∧
    ((p.baseline_scr = none ∨ p.baseline_scr = some .nonfin ∨ p.birth_year = none ∨
        p.anchor_year = none) →
      baseline_egfr_final p vs = first_visit_egfr vs) ∧
    ((p.baseline_scr = none ∨ p.baseline_scr = some .nonfin ∨ p.birth_year = none ∨
        p.anchor_year = none) →
      (∀ v ∈ vs, v.egfr = none) →
      baseline_egfr_final p vs = none) := by
  have hcalc_none :
      (p.baseline_scr = none ∨ p.baseline_scr = some .nonfin ∨ p.birth_year = none ∨
        p.anchor_year = none) →
      compute_baseline_egfr p = none := by
    intro h
    rcases h with h | h | h | h
    · simp [compute_baseline_egfr, h]
    · rcases hby : p.birth_year with _ | by_ <;> rcases hyr : p.anchor_year with _ | yr <;>
        simp [compute_baseline_egfr, h, hby, hyr, scrToMgDl, ckdepi2021, PyF.isFinite]
    · rcases hscr : p.baseline_scr with _ | scr <;>
        simp [compute_baseline_egfr, h, hscr]
    · rcases hscr : p.baseline_scr with _ | scr <;>
        rcases hby : p.birth_year with _ | by_ <;>
        simp [compute_baseline_egfr, h, hscr, hby]
  refine ⟨?_, ?_, ?_, ?_⟩
  · intro scr by_ yr hscr hby hyr
    unfold baseline_egfr_final
    have hcalc : compute_baseline_egfr p
        = some (ckdepiSpec (scr / 88.4) (((yr - by_ : ℤ) : ℝ))
            (p.sex.pyStr.toUpper == "F")) := by
      simp [compute_baseline_egfr, hscr, hby, hyr, scrToMgDl, ckdepi2021_fin]
    rw [hcalc]
  · intro h
    rw [h]
    with_unfolding_all decide
  · intro h
    unfold baseline_egfr_final
    rw [hcalc_none h]
  · intro h hnone
    unfold baseline_egfr_final
    rw [hcalc_none h]
    unfold first_visit_egfr
    rw [List.findSome?_eq_none_iff]
    intro v hv
    exact hnone v (mem_sortedVisits hv)

/-- Witness for C5 (amended): a patient with creatinine 88.4 µmol/L, birth
year 1980, anchor year 2020, sex cell "M" gets the CKD-EPI value; the
hypotheses are discharged at concrete fields. -/
theorem anchor_egfr_resolution_witness :
    baseline_egfr_final ⟨SexCell.str "M", some 1980, some (.fin 88.4), some 2020⟩ []
      = some (ckdepiSpec (88.4 / 88.4) (((2020 - 1980 : ℤ) : ℝ))
          ((SexCell.str "M").pyStr.toUpper == "F")) :=
  (anchor_egfr_resolution ⟨SexCell.str "M", some 1980, some (.fin 88.4), some 2020⟩ []).1
    88.4 1980 2020 rfl rfl rfl

/-- C5 counterexample, refuting both parts of the original fallback clause:
(i) for a patient whose sex cell is missing (pandas NaN) but whose
creatinine, birth year, and anchor are present, the pipeline computes the
male-branch CKD-EPI value although the patient has no visits at all, so the
claimed fallback (null here) does not occur; (ii) for a patient whose
baseline creatinine is missing and whose earliest visit has no recorded
eGFR, the anchor eGFR is the SECOND visit's value 50 (pandas
`groupby.first()` skips nulls), while the eGFR recorded at the earliest
visit - the claim's fallback - is null. -/
theorem anchor_egfr_fallback_counterexample :
    baseline_egfr_final ⟨SexCell.nan, some 1980, some (.fin 88.4), some 2020⟩ []
      = some (ckdepiSpec (88.4 / 88.4) (((2020 - 1980 : ℤ) : ℝ)) false) ∧
    first_visit_egfr ([] : List Visit) = none ∧
    egfrAtEarliestVisit ([] : List Visit) = none ∧
    baseline_egfr_final ⟨SexCell.str "M", some 1980, none, some 2020⟩
        [⟨some 0, none⟩, ⟨some 1, some 50⟩] = some 50 ∧
    egfrAtEarliestVisit [⟨some 0, none⟩, ⟨some 1, some 50⟩] = none := by
  refine ⟨?_, rfl, rfl, rfl, rfl⟩
  have h2 : ("nan".toUpper == "F") = false := by with_unfolding_all decide
  unfold baseline_egfr_final
  have hcalc : compute_baseline_egfr ⟨SexCell.nan, some 1980, some (.fin 88.4), some 2020⟩
      = some (ckdepiSpec (88.4 / 88.4) (((2020 - 1980 : ℤ) : ℝ)) false) := by
    simp [compute_baseline_egfr, scrToMgDl, SexCell.pyStr, ckdepi2021_fin, h2]
  rw [hcalc]

/-- C7 (amended): the mixed-effects estimator is attempted (producing a
fitted row, or a labeled `LME error` row if the external fit raises) only
when statsmodels is available, at least 10 qualifying observations exist,
and at least 5 distinct patients exist; the labeled `LME skipped` entry is
produced exactly when the observation bound is met but the patient bound is
not; and when there are fewer than 10 qualifying observations the estimator
is skipped SILENTLY - `slope_results` stays empty, with no labeled skip
entry (contrary to the original claim). -/
theorem slope_results_gating (hasSM : Bool) (rows : List VRow)
    (fit : Except String Unit) :
    (∀ n m, slope_results hasSM rows fit = [.fitted n m] →
        hasSM = true ∧ 10 ≤ (lmeData rows).length ∧
        5 ≤ nPatientsLME (lmeData rows) ∧ fit = .ok ()) ∧
    (hasSM = true → 10 ≤ (lmeData rows).length →
        nPatientsLME (lmeData rows) < 5 →
        slope_results hasSM rows fit = [.skipped_few_patients]) ∧
    (∀ e, hasSM = true → 10 ≤ (lmeData rows).length →
        5 ≤ nPatientsLME (lmeData rows) → fit = .error e →
        slope_results hasSM rows fit = [.lme_error e]) ∧
    ((lmeData rows).length < 10 → slope_results hasSM rows fit = []) := by
  refine ⟨?_, ?_, ?_, ?_⟩
  · intro n m hout
    unfold slope_results at hout
    by_cases hcond : hasSM = true ∧ 10 ≤ (lmeData rows).length
    · rw [if_pos hcond] at hout
      by_cases hpts : 5 ≤ nPatientsLME (lmeData rows)
      · rw [if_pos hpts] at hout
        cases fit with
        | ok u => exact ⟨hcond.1, hcond.2, hpts, by cases u; rfl⟩
        | error e => exact absurd hout (by simp)
      · rw [if_neg hpts] at hout
        exact absurd hout (by simp)
    · rw [if_neg hcond] at hout
      exact absurd hout (by simp)
  · intro hsm hobs hpts
    unfold slope_results
    rw [if_pos ⟨hsm, hobs⟩, if_neg (by omega)]
  · intro e hsm hobs hpts hfit
    unfold slope_results
    rw [if_pos ⟨hsm, hobs⟩, if_pos hpts, hfit]
  · intro hobs
    unfold slope_results
    rw [if_neg (by omega)]

/-- Witness for C7 (amended): with no rows at all the observation bound
fails and the slope output is empty. -/
theorem slope_results_gating_witness :
    (lmeData ([] : List VRow)).length < 10 ∧
    slope_results true [] (Except.ok ()) = [] :=
  ⟨by with_unfolding_all decide,
   (slope_results_gating true [] (Except.ok ())).2.2.2 (by with_unfolding_all decide)⟩

/-- C7 counterexample: with statsmodels available and exactly one qualifying
observation (fewer than 10), the slope output is empty - no labeled skip
entry is reported, contradicting the claim that a labeled skip entry appears
whenever either bound is unmet. -/
theorem slope_results_silent_skip_counterexample :
    (lmeData [mkRow 0 50 100]).length = 1 ∧
    slope_results true [mkRow 0 50 100] (Except.ok ()) = [] := by
  with_unfolding_all decide

/-- C8: after the dedup step of `merge_all` on the patients table, the rows
carrying any given `(center_code, patient_code)` key are exactly the first
input-order occurrence of that key (so duplicate keys keep exactly one row,
the first one, and unseen keys are unaffected). -/
theorem dedup_keeps_first_occurrence (rows : List PRow) (k : String × String) :
    (dedup_patients rows).filter (fun r => decide (pkey r = k))
      = (rows.filter (fun r => decide (pkey r = k))).take 1 := by
  have haux1 : ∀ (l : List PRow) (seen : List (String × String)), k ∈ seen →
      (drop_duplicates_first l seen).filter (fun r => decide (pkey r = k)) = [] := by
    intro l
    induction l with
    | nil => intro seen _; rfl
    | cons r rs ih =>
        intro seen hk
        unfold drop_duplicates_first
        by_cases hmem : pkey r ∈ seen
        · rw [if_pos hmem]
          exact ih seen hk
        · rw [if_neg hmem]
          have hrk : ¬ (pkey r = k) := fun he => hmem (he ▸ hk)
          rw [List.filter_cons_of_neg (by simpa using hrk)]
          exact ih (pkey r :: seen) (List.mem_cons_of_mem _ hk)
  have haux2 : ∀ (l : List PRow) (seen : List (String × String)), k ∉ seen →
      (drop_duplicates_first l seen).filter (fun r => decide (pkey r = k))
        = (l.filter (fun r => decide (pkey r = k))).take 1 := by
    intro l
    induction l with
    | nil => intro seen _; rfl
    | cons r rs ih =>
        intro seen hk
        unfold drop_duplicates_first
        by_cases hmem : pkey r ∈ seen
        · have hrk : ¬ (pkey r = k) := fun he => hk (he ▸ hmem)
          rw [if_pos hmem, List.filter_cons_of_neg (by simpa using hrk)]
          exact ih seen hk
        · rw [if_neg hmem]
          by_cases hrk : pkey r = k
          · rw [List.filter_cons_of_pos (by simpa using hrk),
              List.filter_cons_of_pos (by simpa using hrk)]
            rw [haux1 rs (pkey r :: seen) (hrk ▸ List.mem_cons_self _ _)]
            rfl
          · rw [List.filter_cons_of_neg (by simpa using hrk),
              List.filter_cons_of_neg (by simpa using hrk)]
            exact ih (pkey r :: seen) (by
              intro hmem2
              rcases List.mem_cons.mp hmem2 with h | h
              · exact hrk h.symm
              · exact hk h)
  exact haux2 rows [] (by simp)
